import Mathlib

/-!
Verification development for the transcriptor web application's subtitle
segment / video status lifecycle.

The frontend editor (src/frontend/src/pages/EditorPage.js and its theme
variants) is embedded directly: segment lookup (`findActiveSegment`), the
export gate (`canExport`), the processing flag (`isProcessing`), the
subtitle-overlay text fallback (`displaySubtitleText`) and the save-button
gate (`clickSave`).

The backend state machine (status transitions, segment store, settings
store, error taxonomy) is not part of the source tree; it is modelled from
the specification, with each modelled definition marked as such in its
doc comment.

Segment times in the source are JavaScript numbers used only in order
comparisons (`>=`, `<`); they are embedded as rationals, which preserves
every comparison exactly.
-/

/-- One subtitle cue: identity, timing, original and (optional) translated
text. Mirrors the segment objects handled by the editor pages. -/
structure Segment where
  id : String
  start_time : ℚ
  end_time : ℚ
  original_text : String
  translated_text : Option String
deriving DecidableEq

/-- Video lifecycle status, exactly the eight status strings used by the
frontend (`getStatusInfo` in EditorPage.js) and the spec. -/
inductive Status where
  | uploaded
  | transcribing
  | transcribed
  | translating
  | translated
  | rendering
  | completed
  | error
deriving DecidableEq

/-- A status is busy when a job is in flight, i.e. it is one of
transcribing / translating / rendering. -/
def Status.busy : Status → Bool
  | .transcribing => true
  | .translating => true
  | .rendering => true
  | _ => false

/-- Embeds `['transcribing', 'translating', 'rendering'].includes(video?.status)`
from EditorPage.js (the `isProcessing` flag); `none` models an absent video
object, for which `includes(undefined)` is false. -/
def isProcessing (st : Option Status) : Bool :=
  match st with
  | some s => s.busy
  | none => false

/-- Embeds the `canExport` gate of EditorPage.js:
`['transcribed', 'translated', 'completed'].includes(video?.status) && segments.length > 0`. -/
def canExport (st : Option Status) (segments : List Segment) : Bool :=
  (match st with
   | some s => decide (s = Status.transcribed ∨ s = Status.translated ∨ s = Status.completed)
   | none => false) && decide (0 < segments.length)

/-- Embeds the active-segment lookup of `handleTimeUpdate`
(EditorPage.js and the theme variant in src/unnamed/part_002):
`segments.find(seg => time >= seg.start_time && time < seg.end_time)`.
`findIndex` in the main variant selects the same (first) matching segment. -/
def findActiveSegment (segments : List Segment) (time : ℚ) : Option Segment :=
  segments.find? (fun seg => decide (seg.start_time ≤ time) && decide (time < seg.end_time))

/-- Embeds the subtitle-overlay text
`activeSegment.translated_text || activeSegment.original_text`:
JavaScript `||` falls back when `translated_text` is null/undefined
(`none`) or the empty string (both falsy). -/
def displaySubtitleText (seg : Segment) : String :=
  match seg.translated_text with
  | some t => if t = "" then seg.original_text else t
  | none => seg.original_text

/-- Embeds the save-button gate `disabled={saving || segments.length === 0}`
of EditorPage.js. -/
def saveDisabled (saving : Bool) (segments : List Segment) : Bool :=
  saving || decide (segments.length = 0)

/-- Embeds a click on the save button: when the button is not disabled,
`handleSaveSubtitles` issues a PUT whose payload is the current local
segment list; a disabled button issues nothing. -/
def clickSave (saving : Bool) (segments : List Segment) : Option (List Segment) :=
  if saveDisabled saving segments then none else some segments

/-- Per-video subtitle rendering configuration, with the fields and value
ranges of the editor's settings dialog (font size 12-48, opacity 0-1,
position one of bottom/top/middle). -/
structure SubtitleSettings where
  font_family : String
  font_size : ℕ
  font_color : String
  background_color : String
  background_opacity : ℚ
  position : String
deriving DecidableEq

/-- The persisted document for one video: status, segment list, settings,
language codes and the export output path. -/
structure VideoDoc where
  status : Status
  segments : List Segment
  subtitle_settings : SubtitleSettings
  source_language : Option String
  target_language : Option String
  output_path : Option String
deriving DecidableEq

/-- The error taxonomy of the spec (section 7). -/
inductive Err where
  | invalidStateError
  | conflictError
  | invalidLanguageError
  | translationAlignmentError
  | externalServiceError
  | validationError
deriving DecidableEq

/-- Result of one core operation: the outcome surfaced to the caller and the
persisted video document afterwards. An error outcome whose state equals the
input document is a rejection without side effects. -/
structure OpResult where
  outcome : Except Err Unit
  state : VideoDoc

/-- Modelled from the spec: the fixed supported set of target language
codes ("validated against a fixed supported set"), instantiated with the
language codes the editor variant in src/unnamed/part_002 offers. -/
def supportedLanguages : List String :=
  ["en", "fr", "es", "de", "it", "pt", "zh", "ja", "ko", "ar", "hi", "ru"]

/-- A segment's timing is valid when end_time strictly exceeds start_time. -/
def segmentTimesValid (s : Segment) : Bool :=
  decide (s.start_time < s.end_time)

/-- Modelled from the spec: the segment store's `replaceSegments`
(section 4.2) — bulk overwrite of a video's segment list, missing from
src/ (the editor's `handleSaveSubtitles` is only its caller). Validates
end_time > start_time for every segment (empty list allowed), stores the
list in the given order without re-sorting, all-or-nothing. -/
def replaceSegments (v : VideoDoc) (S : List Segment) : OpResult :=
  if S.all segmentTimesValid then
    { outcome := Except.ok (), state := { v with segments := S } }
  else
    { outcome := Except.error Err.validationError, state := v }

/-- Reading a video's segment list back from the store. -/
def readSegments (v : VideoDoc) : List Segment :=
  v.segments

/-- Settings validation per the spec's data model: font size 12-48 px,
background opacity 0.0-1.0, position one of top/middle/bottom. -/
def settingsValid (s : SubtitleSettings) : Bool :=
  decide (12 ≤ s.font_size) && decide (s.font_size ≤ 48) &&
  decide (0 ≤ s.background_opacity) && decide (s.background_opacity ≤ 1) &&
  decide (s.position ∈ (["top", "middle", "bottom"] : List String))

/-- Modelled from the spec: `replaceSettings` (section 4.2), missing from
src/ (the editor's `handleSaveSettings` is only its caller) — wholesale
replacement of the settings object, not a field-by-field merge; out-of-range
values are rejected with ValidationError and leave the stored object
untouched. -/
def replaceSettings (v : VideoDoc) (s : SubtitleSettings) : OpResult :=
  if settingsValid s then
    { outcome := Except.ok (), state := { v with subtitle_settings := s } }
  else
    { outcome := Except.error Err.validationError, state := v }

/-- Modelled from the spec: the `transcribe` trigger (section 4.1), missing
from src/ (the editor's `handleTranscribe` is only its caller). A busy
status (job in flight) is rejected with ConflictError; any non-busy status
other than `uploaded` is rejected with InvalidStateError; from `uploaded`
the status is set to `transcribing` before the external call is dispatched. -/
def transcribeStart (v : VideoDoc) : OpResult :=
  if v.status.busy then
    { outcome := Except.error Err.conflictError, state := v }
  else if v.status = Status.uploaded then
    { outcome := Except.ok (), state := { v with status := Status.transcribing } }
  else
    { outcome := Except.error Err.invalidStateError, state := v }

/-- Modelled from the spec: resolution of an in-flight transcription job.
The external speech-to-text response is either a failure (ExternalServiceError,
status becomes `error`, partial data discarded) or an ordered segment list
plus detected source language (written, status becomes `transcribed`). -/
def transcribeFinish (v : VideoDoc) (resp : Except Unit (List Segment × String)) : OpResult :=
  match resp with
  | Except.error _ =>
    { outcome := Except.error Err.externalServiceError, state := { v with status := Status.error } }
  | Except.ok (segs, lang) =>
    { outcome := Except.ok (),
      state := { v with
        segments := segs,
        source_language := some lang,
        status := Status.transcribed } }

/-- Writes a 1:1-aligned list of translated strings into the segments, in
the original segment order. -/
def applyTranslations (segs : List Segment) (ts : List String) : List Segment :=
  List.zipWith (fun seg t => { seg with translated_text := some t }) segs ts

/-- Modelled from the spec: the `translate` operation (sections 4.1, 6, 7)
as one episode whose external translation response is a parameter, missing
from src/ (the editor's `handleTranslate` is only its caller). A busy status
is rejected with ConflictError; a status other than `transcribed`/`translated`
with InvalidStateError; an unsupported target language with
InvalidLanguageError; a failed external call resolves the video to `error`
(ExternalServiceError); a response not aligned 1:1 with the segments is
rejected with TranslationAlignmentError leaving the document untouched;
otherwise every segment's translated text is overwritten in order, the
target language recorded, and the status becomes `translated`. -/
def translateRun (v : VideoDoc) (lang : String) (resp : Except Unit (List String)) : OpResult :=
  if v.status.busy then
    { outcome := Except.error Err.conflictError, state := v }
  else if v.status = Status.transcribed ∨ v.status = Status.translated then
    if lang ∈ supportedLanguages then
      match resp with
      | Except.error _ =>
        { outcome := Except.error Err.externalServiceError,
          state := { v with status := Status.error } }
      | Except.ok ts =>
        if ts.length = v.segments.length then
          { outcome := Except.ok (),
            state := { v with
              segments := applyTranslations v.segments ts,
              target_language := some lang,
              status := Status.translated } }
        else
          { outcome := Except.error Err.translationAlignmentError, state := v }
    else
      { outcome := Except.error Err.invalidLanguageError, state := v }
  else
    { outcome := Except.error Err.invalidStateError, state := v }

/-- Modelled from the spec: the `export` operation (sections 4.1, 7) as one
episode whose media-tool result is a parameter, missing from src/ (the
editor's `handleExport` is only its caller). A busy status is rejected with
ConflictError; export is permitted only when the status is
`transcribed`/`translated`/`completed` and segments exist; a failing tool
invocation resolves the video to `error` (ExternalServiceError) leaving
segments and settings untouched; success records the output path and sets
status `completed`. -/
def exportRun (v : VideoDoc) (tool : Except Unit String) : OpResult :=
  if v.status.busy then
    { outcome := Except.error Err.conflictError, state := v }
  else if (v.status = Status.transcribed ∨ v.status = Status.translated ∨
           v.status = Status.completed) ∧ v.segments ≠ [] then
    match tool with
    | Except.error _ =>
      { outcome := Except.error Err.externalServiceError,
        state := { v with status := Status.error } }
    | Except.ok path =>
      { outcome := Except.ok (),
        state := { v with status := Status.completed, output_path := some path } }
  else
    { outcome := Except.error Err.invalidStateError, state := v }

/-- Modelled from the spec: the API-level segment mutation (section 5) —
the editor's save is itself a mutation that must be rejected with
ConflictError while a job is in flight on the video; otherwise it is the
store-level `replaceSegments`. -/
def apiReplaceSegments (v : VideoDoc) (S : List Segment) : OpResult :=
  if v.status.busy then
    { outcome := Except.error Err.conflictError, state := v }
  else
    replaceSegments v S

/-- The frontend's default subtitle settings object (EditorPage.js). -/
def defaultSettings : SubtitleSettings :=
  { font_family := "Arial", font_size := 24, font_color := "#FFFFFF",
    background_color := "#000000", background_opacity := 7/10, position := "bottom" }

/-- Demo segment used by concrete witnesses. -/
def demoSegA : Segment :=
  { id := "a", start_time := 0, end_time := 2, original_text := "Hello", translated_text := none }

/-- Demo segment contiguous with `demoSegA` (starts exactly where it ends). -/
def demoSegB : Segment :=
  { id := "b", start_time := 2, end_time := 4, original_text := "World", translated_text := some "Monde" }

/-- Third demo segment, completing the spec's 3-segment scenario. -/
def demoSegC : Segment :=
  { id := "c", start_time := 4, end_time := 6, original_text := "Bye", translated_text := none }

/-- A video in status `transcribed` with the spec scenario's 3 segments. -/
def demoTranscribedVideo : VideoDoc :=
  { status := Status.transcribed, segments := [demoSegA, demoSegB, demoSegC],
    subtitle_settings := defaultSettings, source_language := some "en",
    target_language := none, output_path := none }

/-- A video with a transcription job in flight. -/
def demoBusyVideo : VideoDoc :=
  { status := Status.transcribing, segments := [demoSegA],
    subtitle_settings := defaultSettings, source_language := none,
    target_language := none, output_path := none }

/-- A freshly uploaded video. -/
def demoUploadedVideo : VideoDoc :=
  { status := Status.uploaded, segments := [],
    subtitle_settings := defaultSettings, source_language := none,
    target_language := none, output_path := none }

/-- A segment whose translation has been edited down to the empty string. -/
def demoEmptyTranslated : Segment :=
  { id := "e", start_time := 0, end_time := 1, original_text := "Hi",
    translated_text := some "" }

/-- C1: `findActiveSegment` is a half-open-interval lookup. Any returned
segment is a list member whose interval [start_time, end_time) contains the
time; the result is `none` exactly when no segment's half-open interval
contains the time; and a segment is never returned for a time equal to its
own end_time (so a contiguous next segment, if any, wins instead). -/
theorem findActiveSegment_halfOpen (segs : List Segment) (t : ℚ) :
    (∀ s, findActiveSegment segs t = some s →
      s ∈ segs ∧ s.start_time ≤ t ∧ t < s.end_time) ∧
    (findActiveSegment segs t = none ↔
      ∀ s ∈ segs, ¬(s.start_time ≤ t ∧ t < s.end_time)) ∧
    (∀ s ∈ segs, t = s.end_time → findActiveSegment segs t ≠ some s) := by
  refine ⟨?_, ?_, ?_⟩
  · intro s hs
    have hmem := List.mem_of_find?_eq_some hs
    have hp := List.find?_some hs
    simp only [Bool.and_eq_true, decide_eq_true_eq] at hp
    exact ⟨hmem, hp.1, hp.2⟩
  · unfold findActiveSegment
    rw [List.find?_eq_none]
    constructor
    · intro h s hs hcont
      have := h s hs
      simp only [Bool.and_eq_true, decide_eq_true_eq] at this
      exact this ⟨hcont.1, hcont.2⟩
    · intro h s hs
      simp only [Bool.and_eq_true, decide_eq_true_eq]
      intro hcont
      exact h s hs hcont
  · intro s _ hend hfind
    have hp := List.find?_some hfind
    simp only [Bool.and_eq_true, decide_eq_true_eq] at hp
    have : t < t := hend ▸ hp.2
    exact lt_irrefl t this

/-- Concrete witness for C1: at time 2, the segment ending exactly at 2 is
not returned, even though the next contiguous segment starts there. -/
theorem findActiveSegment_halfOpen_witness :
    findActiveSegment [demoSegA, demoSegB] 2 ≠ some demoSegA :=
  (findActiveSegment_halfOpen [demoSegA, demoSegB] 2).2.2 demoSegA
    (by simp) (by norm_num [demoSegA])

/-- C2: while a job is in flight (status transcribing/translating/rendering)
every trigger — transcribe, translate, export — and the editor's segment
mutation is rejected with ConflictError and the document is left untouched
(not queued, not silently ignored); and from `uploaded`, a first transcribe
call moves the status to `transcribing` while a second call then gets
ConflictError and leaves that state — so the first job's eventual
resolution is unaffected and there is exactly one transcribing episode. -/
theorem inflight_mutual_exclusion (v : VideoDoc) (lang : String)
    (resp : Except Unit (List String)) (tool : Except Unit String) (S : List Segment) :
    (Status.busy v.status = true →
      transcribeStart v = { outcome := Except.error Err.conflictError, state := v } ∧
      translateRun v lang resp = { outcome := Except.error Err.conflictError, state := v } ∧
      exportRun v tool = { outcome := Except.error Err.conflictError, state := v } ∧
      apiReplaceSegments v S = { outcome := Except.error Err.conflictError, state := v }) ∧
    (v.status = Status.uploaded →
      transcribeStart v =
        { outcome := Except.ok (), state := { v with status := Status.transcribing } } ∧
      transcribeStart { v with status := Status.transcribing } =
        { outcome := Except.error Err.conflictError,
          state := { v with status := Status.transcribing } }) := by
  constructor
  · intro hb
    refine ⟨?_, ?_, ?_, ?_⟩ <;>
      simp [transcribeStart, translateRun, exportRun, apiReplaceSegments, hb]
  · intro hu
    have hb : Status.busy v.status = false := by rw [hu]; rfl
    constructor
    · simp [transcribeStart, hb, hu, Status.busy]
    · simp [transcribeStart, Status.busy]

/-- Concrete witness for C2: a video with a transcription in flight rejects
a new transcribe call with ConflictError, leaving the document unchanged. -/
theorem inflight_mutual_exclusion_witness :
    transcribeStart demoBusyVideo =
      { outcome := Except.error Err.conflictError, state := demoBusyVideo } :=
  ((inflight_mutual_exclusion demoBusyVideo "fr" (Except.ok [])
    (Except.ok "out") []).1 (by decide)).1

/-- C3 counterexample: translate on a video whose status is `transcribing`
(a state other than transcribed/translated) is rejected with ConflictError,
not InvalidStateError — refuting the claim that translate called from any
other state fails with InvalidStateError. -/
theorem translate_busy_counterexample :
    (translateRun demoBusyVideo "fr" (Except.ok [])).outcome =
      Except.error Err.conflictError ∧
    Err.conflictError ≠ Err.invalidStateError := by
  exact ⟨rfl, by decide⟩

/-- C3 (amended): translate is valid only from `transcribed` or `translated`.
From the non-busy invalid states (uploaded, completed, error) it fails with
InvalidStateError; from a busy state it fails with ConflictError; from a
valid state with an unsupported target language it fails with
InvalidLanguageError; from a valid state with a supported language it is
never rejected by the state or language gates. -/
theorem translate_state_rules (v : VideoDoc) (lang : String)
    (resp : Except Unit (List String)) :
    (v.status = Status.uploaded ∨ v.status = Status.completed ∨
        v.status = Status.error →
      translateRun v lang resp =
        { outcome := Except.error Err.invalidStateError, state := v }) ∧
    (Status.busy v.status = true →
      translateRun v lang resp =
        { outcome := Except.error Err.conflictError, state := v }) ∧
    ((v.status = Status.transcribed ∨ v.status = Status.translated) →
      lang ∉ supportedLanguages →
      translateRun v lang resp =
        { outcome := Except.error Err.invalidLanguageError, state := v }) ∧
    ((v.status = Status.transcribed ∨ v.status = Status.translated) →
      lang ∈ supportedLanguages →
      (translateRun v lang resp).outcome ≠ Except.error Err.invalidStateError ∧
      (translateRun v lang resp).outcome ≠ Except.error Err.conflictError ∧
      (translateRun v lang resp).outcome ≠ Except.error Err.invalidLanguageError) := by
  refine ⟨?_, ?_, ?_, ?_⟩
  · intro h
    rcases h with h | h | h <;> simp [translateRun, Status.busy, h]
  · intro hb
    simp [translateRun, hb]
  · intro hst hlang
    rcases hst with h | h <;> simp [translateRun, Status.busy, h, hlang]
  · intro hst hlang
    rcases hst with h | h <;>
    · cases resp with
      | error u => simp [translateRun, Status.busy, h, hlang]
      | ok ts =>
        by_cases hl : ts.length = v.segments.length <;>
          simp [translateRun, Status.busy, h, hlang, hl]

/-- Concrete witness for C3 (amended): translate on a video in `uploaded`
is rejected with InvalidStateError, leaving the document unchanged. -/
theorem translate_state_rules_witness :
    translateRun demoUploadedVideo "fr" (Except.ok []) =
      { outcome := Except.error Err.invalidStateError, state := demoUploadedVideo } :=
  (translate_state_rules demoUploadedVideo "fr" (Except.ok [])).1 (Or.inl rfl)

/-- C4: export is permitted exactly when the status is transcribed,
translated or completed and the segment list is non-empty: the editor's
`canExport` gate is equivalent to that condition, and the modelled export
operation passes its state/segments gate exactly when `canExport` holds. -/
theorem export_permission (v : VideoDoc) (tool : Except Unit String) :
    (canExport (some v.status) v.segments = true ↔
      ((v.status = Status.transcribed ∨ v.status = Status.translated ∨
        v.status = Status.completed) ∧ v.segments ≠ [])) ∧
    (canExport (some v.status) v.segments = true →
      (exportRun v tool).outcome ≠ Except.error Err.invalidStateError ∧
      (exportRun v tool).outcome ≠ Except.error Err.conflictError) ∧
    (canExport (some v.status) v.segments = false →
      (exportRun v tool).outcome = Except.error Err.invalidStateError ∨
      (exportRun v tool).outcome = Except.error Err.conflictError) := by
  have hiff : canExport (some v.status) v.segments = true ↔
      ((v.status = Status.transcribed ∨ v.status = Status.translated ∨
        v.status = Status.completed) ∧ v.segments ≠ []) := by
    simp [canExport, List.length_pos]
  refine ⟨hiff, ?_, ?_⟩
  · intro h
    obtain ⟨hs, hne⟩ := hiff.mp h
    have hb : Status.busy v.status = false := by
      rcases hs with h1 | h1 | h1 <;> rw [h1] <;> rfl
    have hcond : (v.status = Status.transcribed ∨ v.status = Status.translated ∨
        v.status = Status.completed) ∧ v.segments ≠ [] := ⟨hs, hne⟩
    cases tool with
    | error u => simp [exportRun, hb, hcond]
    | ok p => simp [exportRun, hb, hcond]
  · intro h
    have hcond : ¬((v.status = Status.transcribed ∨ v.status = Status.translated ∨
        v.status = Status.completed) ∧ v.segments ≠ []) := by
      intro hc
      rw [hiff.mpr hc] at h
      simp at h
    by_cases hb : Status.busy v.status = true
    · right
      simp [exportRun, hb]
    · left
      rw [Bool.not_eq_true] at hb
      simp [exportRun, hb, hcond]

/-- Concrete witness for C4: a transcribed video with segments may export;
an uploaded video (no segments) may not. -/
theorem export_permission_witness :
    canExport (some demoTranscribedVideo.status) demoTranscribedVideo.segments = true :=
  (export_permission demoTranscribedVideo (Except.ok "out")).1.mpr
    ⟨Or.inl rfl, by decide⟩

/-- C5: on a video in `transcribed`, a translation response that is not
aligned 1:1 with the segments is rejected with TranslationAlignmentError;
the document is returned unchanged, so the status remains `transcribed` and
no segment text is modified. -/
theorem translate_alignment_guard (v : VideoDoc) (lang : String) (ts : List String)
    (hst : v.status = Status.transcribed) (hlang : lang ∈ supportedLanguages)
    (hlen : ts.length ≠ v.segments.length) :
    translateRun v lang (Except.ok ts) =
      { outcome := Except.error Err.translationAlignmentError, state := v } ∧
    (translateRun v lang (Except.ok ts)).state.status = Status.transcribed ∧
    (translateRun v lang (Except.ok ts)).state.segments = v.segments := by
  have hb : Status.busy v.status = false := by rw [hst]; rfl
  have heq : translateRun v lang (Except.ok ts) =
      { outcome := Except.error Err.translationAlignmentError, state := v } := by
    simp [translateRun, Status.busy, hst, hlang, hlen]
  refine ⟨heq, ?_, ?_⟩
  · rw [heq]
    exact hst
  · rw [heq]

/-- Concrete witness for C5, the spec scenario: 3 segments, a 2-element
translated response, and the rejection that leaves the document intact. -/
theorem translate_alignment_guard_witness :
    translateRun demoTranscribedVideo "fr" (Except.ok ["Bonjour", "Monde"]) =
      { outcome := Except.error Err.translationAlignmentError,
        state := demoTranscribedVideo } :=
  (translate_alignment_guard demoTranscribedVideo "fr" ["Bonjour", "Monde"]
    rfl (by decide) (by decide)).1

/-- C6: for any segment list in which every segment has
end_time > start_time, `replaceSegments` succeeds and a read returns the
list exactly as given (same elements, same order — no re-sorting). -/
theorem replaceSegments_roundtrip (v : VideoDoc) (S : List Segment)
    (h : ∀ s ∈ S, s.start_time < s.end_time) :
    (replaceSegments v S).outcome = Except.ok () ∧
    readSegments (replaceSegments v S).state = S := by
  have hall : S.all segmentTimesValid = true := by
    rw [List.all_eq_true]
    intro s hs
    simpa [segmentTimesValid] using h s hs
  simp [replaceSegments, readSegments, hall]

/-- Concrete witness for C6: a deliberately non-chronological valid list is
stored and read back in the given order. -/
theorem replaceSegments_roundtrip_witness :
    readSegments (replaceSegments demoUploadedVideo [demoSegB, demoSegA]).state =
      [demoSegB, demoSegA] :=
  (replaceSegments_roundtrip demoUploadedVideo [demoSegB, demoSegA] (by decide)).2

/-- C7: `replaceSettings` is idempotent — applying the same complete
settings object to the state produced by a first application yields exactly
the first application's result, because each call is a wholesale
replacement of the settings object. -/
theorem replaceSettings_idempotent (v : VideoDoc) (s : SubtitleSettings) :
    replaceSettings (replaceSettings v s).state s = replaceSettings v s := by
  by_cases hv : settingsValid s = true
  · simp [replaceSettings, hv]
  · rw [Bool.not_eq_true] at hv
    simp [replaceSettings, hv]

/-- C8: a failing export tool invocation resolves the video to `error`
while leaving the stored segments and subtitle settings unchanged; and
ExternalServiceError is the only error kind that mutates persisted state —
every operation of the core that surfaces any other error kind returns the
document untouched. -/
theorem export_error_frame (v : VideoDoc) (lang : String)
    (resp : Except Unit (List String)) (sresp : Except Unit (List Segment × String))
    (tool : Except Unit String) (S : List Segment) (cfg : SubtitleSettings) (e : Err) :
    ((v.status = Status.transcribed ∨ v.status = Status.translated ∨
        v.status = Status.completed) ∧ v.segments ≠ [] →
      exportRun v (Except.error ()) =
        { outcome := Except.error Err.externalServiceError,
          state := { v with status := Status.error } } ∧
      (exportRun v (Except.error ())).state.segments = v.segments ∧
      (exportRun v (Except.error ())).state.subtitle_settings = v.subtitle_settings ∧
      (exportRun v (Except.error ())).state.status = Status.error) ∧
    (e ≠ Err.externalServiceError →
      ((transcribeStart v).outcome = Except.error e →
        (transcribeStart v).state = v) ∧
      ((transcribeFinish v sresp).outcome = Except.error e →
        (transcribeFinish v sresp).state = v) ∧
      ((translateRun v lang resp).outcome = Except.error e →
        (translateRun v lang resp).state = v) ∧
      ((exportRun v tool).outcome = Except.error e →
        (exportRun v tool).state = v) ∧
      ((apiReplaceSegments v S).outcome = Except.error e →
        (apiReplaceSegments v S).state = v) ∧
      ((replaceSettings v cfg).outcome = Except.error e →
        (replaceSettings v cfg).state = v)) := by
  constructor
  · intro hpre
    obtain ⟨hs, hne⟩ := hpre
    have hb : Status.busy v.status = false := by
      rcases hs with h1 | h1 | h1 <;> rw [h1] <;> rfl
    have hcond : (v.status = Status.transcribed ∨ v.status = Status.translated ∨
        v.status = Status.completed) ∧ v.segments ≠ [] := ⟨hs, hne⟩
    have hx : exportRun v (Except.error ()) =
        { outcome := Except.error Err.externalServiceError,
          state := { v with status := Status.error } } := by
      simp [exportRun, hb, hcond]
    refine ⟨hx, ?_, ?_, ?_⟩ <;> rw [hx]
  · intro he
    refine ⟨?_, ?_, ?_, ?_, ?_, ?_⟩
    all_goals simp only [transcribeStart, transcribeFinish, translateRun, exportRun,
      apiReplaceSegments, replaceSegments, replaceSettings]
    all_goals repeat' split
    all_goals intro hout
    all_goals first
      | rfl
      | exact Except.noConfusion hout
      | exact absurd (Except.error.inj hout).symm he

/-- Concrete witness for C8: a throwing export tool on a transcribed video
leaves the segments intact (status becomes `error`), and a non-external
error (ConflictError on a busy video's segment mutation) leaves the whole
document unchanged. -/
theorem export_error_frame_witness :
    (exportRun demoTranscribedVideo (Except.error ())).state.segments =
        demoTranscribedVideo.segments ∧
    (apiReplaceSegments demoBusyVideo []).state = demoBusyVideo := by
  constructor
  · exact ((export_error_frame demoTranscribedVideo "fr" (Except.ok [])
      (Except.ok ([], "en")) (Except.error ()) [] defaultSettings
      Err.conflictError).1 ⟨Or.inl rfl, by decide⟩).2.1
  · exact ((export_error_frame demoBusyVideo "fr" (Except.ok [])
      (Except.ok ([], "en")) (Except.ok "out") [] defaultSettings
      Err.conflictError).2 (by decide)).2.2.2.2.1 rfl

/-- C9: when a segment's translated text is falsy — the empty string a user
gets by deleting the translation, or absent — the subtitle overlay shows
the segment's original text. -/
theorem display_fallback (seg : Segment)
    (h : seg.translated_text = some "" ∨ seg.translated_text = none) :
    displaySubtitleText seg = seg.original_text := by
  rcases h with h | h <;> simp [displaySubtitleText, h]

/-- Concrete witness for C9: a segment whose translation was edited to the
empty string displays its original text. -/
theorem display_fallback_witness :
    displaySubtitleText demoEmptyTranslated = demoEmptyTranslated.original_text :=
  display_fallback demoEmptyTranslated (Or.inl rfl)

/-- C10: a save request is issued only from an enabled save button: every
issued request is exactly the current non-empty local segment list and no
save was pending; with a save in flight, or with an empty segment list, no
request is issued. -/
theorem save_click_guard (saving : Bool) (segments req : List Segment) :
    (clickSave saving segments = some req →
      saving = false ∧ req = segments ∧ req ≠ []) ∧
    (saving = true → clickSave saving segments = none) ∧
    (segments = [] → clickSave saving segments = none) := by
  refine ⟨?_, ?_, ?_⟩
  · intro h
    have hd : saveDisabled saving segments = false := by
      by_contra hc
      rw [Bool.not_eq_false] at hc
      simp [clickSave, hc] at h
    have hsv : saving = false ∧ ¬segments.length = 0 := by
      simpa [saveDisabled] using hd
    have hreq : req = segments := by
      simp [clickSave, hd] at h
      exact h.symm
    refine ⟨hsv.1, hreq, ?_⟩
    rw [hreq]
    intro hnil
    exact hsv.2 (by rw [hnil]; rfl)
  · intro h
    simp [clickSave, saveDisabled, h]
  · intro h
    simp [clickSave, saveDisabled, h]

/-- Concrete witness for C10: an enabled click with one local segment and no
pending save issues that non-empty list. -/
theorem save_click_guard_witness :
    (false : Bool) = false ∧ [demoSegA] = [demoSegA] ∧ [demoSegA] ≠ ([] : List Segment) :=
  (save_click_guard false [demoSegA] [demoSegA]).1 rfl
